import Mathlib

set_option autoImplicit false

/-!
Shallow embedding of the VR session lifecycle and frame-submission engine of
`intern/vamr/intern/VAMR_Session.cc`.

Modelling conventions:
* OpenXR handles (`XrSession`, `XrSpace`, `XrSwapchain`, the GHOST graphics
  context pointer) are modelled as `Option Nat`: `none` is `XR_NULL_HANDLE` /
  `nullptr`.  Handles produced by successful runtime create-calls are
  allocated deterministically (session = 1, reference space = 2, the swapchain
  for view `i` = `10 + i`); handles are opaque in the source, so any injective
  allocation represents the runtime faithfully.
* Runtime calls (`xrGetSystem`, `xrCreateSession`, `xrBeginSession`, ...) are
  external; their outcomes are supplied by environment records.  `CHECK_XR`
  turning a failed call into a thrown `VAMR_Exception` is modelled by an
  `Option VAMR_Error` / `Except VAMR_Error` result, with all state mutations
  performed before the throwing call preserved (as in the C++ code, where
  member writes that precede a `CHECK_XR` survive the exception).
* Frame durations (C++ `double` milliseconds) are modelled as `ℚ`.
-/

/-- `XrSessionState`, the runtime-reported session lifecycle states. -/
inductive XrSessionState
  | UNKNOWN
  | IDLE
  | READY
  | SYNCHRONIZED
  | VISIBLE
  | FOCUSED
  | STOPPING
  | LOSS_PENDING
  | EXITING
  deriving DecidableEq, Repr

/-- Error taxonomy: each constructor wraps one failing runtime call or failed
precondition check (`CHECK_XR` / `THROW_XR` sites of `VAMR_Session.cc`). -/
inductive VAMR_Error
  | ConfigurationError
  | RuntimeQueryError
  | CapabilityError
  | SessionCreateError
  | SessionBeginError
  | SessionEndError
  | ViewEnumError
  | FormatEnumError
  | FormatNegotiationError
  | SwapchainCreateError
  | SwapchainImagesError
  | SpaceCreateError
  | FrameSyncError
  | FrameBeginError
  | FrameSubmitError
  | ViewLocateError
  | OutOfBounds
  deriving DecidableEq, Repr

/-- Return value of `VAMR_Session::handleStateChangeEvent`. -/
inductive eLifeExpectancy
  | SESSION_KEEP_ALIVE
  | SESSION_DESTROY
  deriving DecidableEq, Repr

deriving instance DecidableEq for Except

/-- `XrEventDataSessionStateChanged`: the session the event refers to (a raw
handle value) and the new state. -/
structure XrEventDataSessionStateChanged where
  session : Nat
  state : XrSessionState
  deriving DecidableEq, Repr

/-- One entry of the runtime's view-configuration enumeration
(`XrViewConfigurationView`): the recommended swapchain extent and sample
count for one view/eye. -/
structure XrViewConfigurationView where
  recommendedImageRectWidth : Nat
  recommendedImageRectHeight : Nat
  recommendedSwapchainSampleCount : Nat
  deriving DecidableEq, Repr

/-- `XrFrameState`: the frame timing snapshot captured by `xrWaitFrame`. -/
structure XrFrameState where
  predictedDisplayTime : Int
  shouldRender : Bool
  deriving DecidableEq, Repr

/-- `struct OpenXRSessionData` of `VAMR_Session.cc` (the `m_oxr` member).
`views` only needs its length for the properties at hand, so `XrView` is a
unit placeholder.  `swapchain_images` is the `std::map` from swapchain handle
to its image vector, as an association list; images are opaque ids. -/
structure OpenXRSessionData where
  system_id : Option Nat
  session : Option Nat
  session_state : XrSessionState
  reference_space : Option Nat
  views : List Unit
  swapchains : List Nat
  swapchain_images : List (Nat × List Nat)
  swapchain_image_width : Nat
  swapchain_image_height : Nat
  deriving DecidableEq, Repr

/-- `struct VAMR_DrawInfo`: per-frame scratch data.  `frame_begin_time` is a
wall-clock sample; the duration it eventually yields is supplied by the draw
environment instead, so only the captured frame state and the rolling window
of previous frame times (in ms, as `ℚ`) are kept. -/
structure VAMR_DrawInfo where
  frame_state : XrFrameState
  last_frame_times : List ℚ
  deriving DecidableEq, Repr

/-- The `VAMR_Session` object: its OpenXR data block, the bound graphics
context (`m_gpu_ctx`, `none` = `nullptr`) and the per-frame draw state
(`m_draw_info`, `none` = `nullptr`). -/
structure VAMR_Session where
  oxr : OpenXRSessionData
  gpu_ctx : Option Nat
  draw_info : Option VAMR_DrawInfo
  deriving DecidableEq, Repr

/-- A freshly constructed `OpenXRSessionData` (`new OpenXRSessionData()`
value-initializes: every handle is `XR_NULL_HANDLE`, the state is
`XR_SESSION_STATE_UNKNOWN`, containers are empty, the extent fields are
zeroed). -/
def oxr0 : OpenXRSessionData :=
  { system_id := none
    session := none
    session_state := XrSessionState.UNKNOWN
    reference_space := none
    views := []
    swapchains := []
    swapchain_images := []
    swapchain_image_width := 0
    swapchain_image_height := 0 }

/-- A freshly constructed `VAMR_Session` (constructor at line 65). -/
def session0 : VAMR_Session :=
  { oxr := oxr0, gpu_ctx := none, draw_info := none }

/-- Environment for state-change handling: outcomes of `xrBeginSession` and
`xrEndSession`, and whether an unbind callback is registered. -/
structure HscEnv where
  beginOk : Bool
  endOk : Bool
  unbindFnRegistered : Bool
  deriving DecidableEq, Repr

/-- `VAMR_Session::unbindGraphicsContext`: if an unbind callback is
registered it is invoked with the currently stored context handle (recorded
in the returned trace), then `m_gpu_ctx` is nulled. -/
def unbindGraphicsContext (registered : Bool) (s : VAMR_Session) :
    VAMR_Session × List (Option Nat) :=
  ({ s with gpu_ctx := none }, if registered then [s.gpu_ctx] else [])

/-- `VAMR_Session::end`: `xrEndSession` (fails when the handle is null or the
environment says so, throwing `SessionEndError` with no further effect), then
unbind the graphics context, then discard the draw state.  The middle
component is the trace of unbind-callback invocations. -/
def sessionEnd (env : HscEnv) (s : VAMR_Session) :
    VAMR_Session × List (Option Nat) × Option VAMR_Error :=
  if s.oxr.session.isSome && env.endOk then
    let p := unbindGraphicsContext env.unbindFnRegistered s
    ({ p.1 with draw_info := none }, p.2, none)
  else
    (s, [], some VAMR_Error.SessionEndError)

/-- `VAMR_Session::handleStateChangeEvent` (lines 205-235): the new state is
stored unconditionally first; then READY begins the runtime session
(`SessionBeginError` on failure — `xrBeginSession` also fails on a null
handle), STOPPING synchronously runs `end()`, EXITING / LOSS_PENDING return
`SESSION_DESTROY`, everything else is a no-op. -/
def handleStateChangeEvent (env : HscEnv) (lifecycle : XrEventDataSessionStateChanged)
    (s : VAMR_Session) : VAMR_Session × Except VAMR_Error eLifeExpectancy :=
  let s1 : VAMR_Session := { s with oxr := { s.oxr with session_state := lifecycle.state } }
  match lifecycle.state with
  | XrSessionState.READY =>
      (s1,
        if s1.oxr.session.isSome && env.beginOk then Except.ok eLifeExpectancy.SESSION_KEEP_ALIVE
        else Except.error VAMR_Error.SessionBeginError)
  | XrSessionState.STOPPING =>
      let p := sessionEnd env s1
      (p.1,
        match p.2.2 with
        | none => Except.ok eLifeExpectancy.SESSION_KEEP_ALIVE
        | some e => Except.error e)
  | XrSessionState.EXITING => (s1, Except.ok eLifeExpectancy.SESSION_DESTROY)
  | XrSessionState.LOSS_PENDING => (s1, Except.ok eLifeExpectancy.SESSION_DESTROY)
  | _ => (s1, Except.ok eLifeExpectancy.SESSION_KEEP_ALIVE)

/-- Delivering a sequence of state-change events: each event is processed
from the state left by the previous one (an exception unwinds to the event
pump, which keeps delivering later events). -/
def handleEvents (env : HscEnv) (evs : List XrEventDataSessionStateChanged)
    (s : VAMR_Session) : VAMR_Session :=
  evs.foldl (fun s ev => (handleStateChangeEvent env ev s).1) s

/-- `VAMR_Session::isRunning` (lines 527-541). -/
def isRunning (s : VAMR_Session) : Bool :=
  match s.oxr.session with
  | none => false
  | some _ =>
    match s.oxr.session_state with
    | XrSessionState.READY => true
    | XrSessionState.SYNCHRONIZED => true
    | XrSessionState.VISIBLE => true
    | XrSessionState.FOCUSED => true
    | _ => false

/-! ### Basic state-machine lemmas -/

theorem sessionEnd_oxr (env : HscEnv) (s : VAMR_Session) :
    (sessionEnd env s).1.oxr = s.oxr := by
  unfold sessionEnd unbindGraphicsContext
  split <;> rfl

theorem handleStateChangeEvent_state (env : HscEnv)
    (ev : XrEventDataSessionStateChanged) (s : VAMR_Session) :
    (handleStateChangeEvent env ev s).1.oxr.session_state = ev.state := by
  unfold handleStateChangeEvent
  cases h : ev.state <;> simp [h, sessionEnd_oxr]

theorem handleStateChangeEvent_session (env : HscEnv)
    (ev : XrEventDataSessionStateChanged) (s : VAMR_Session) :
    (handleStateChangeEvent env ev s).1.oxr.session = s.oxr.session := by
  unfold handleStateChangeEvent
  cases h : ev.state <;> simp [h, sessionEnd_oxr]

theorem handleEvents_session (env : HscEnv)
    (evs : List XrEventDataSessionStateChanged) (s : VAMR_Session) :
    (handleEvents env evs s).oxr.session = s.oxr.session := by
  induction evs generalizing s with
  | nil => rfl
  | cons ev rest ih =>
      simp only [handleEvents, List.foldl_cons] at *
      rw [ih, handleStateChangeEvent_session]

theorem handleEvents_last_state (env : HscEnv)
    (evs : List XrEventDataSessionStateChanged) (s : VAMR_Session)
    (ev : XrEventDataSessionStateChanged) (h : evs.getLast? = some ev) :
    (handleEvents env evs s).oxr.session_state = ev.state := by
  induction evs generalizing s with
  | nil => simp at h
  | cons e rest ih =>
      rcases rest with _ | ⟨e2, rest2⟩
      · simp only [List.getLast?_singleton, Option.some.injEq] at h
        subst h
        simp only [handleEvents, List.foldl_cons, List.foldl_nil]
        exact handleStateChangeEvent_state env e s
      · have hlast : (e2 :: rest2).getLast? = some ev := by
          rwa [List.getLast?_cons_cons] at h
        simp only [handleEvents, List.foldl_cons] at ih ⊢
        exact ih _ hlast

theorem isRunning_iff (s : VAMR_Session) :
    isRunning s = true ↔
      s.oxr.session ≠ none ∧
        (s.oxr.session_state = XrSessionState.READY ∨
         s.oxr.session_state = XrSessionState.SYNCHRONIZED ∨
         s.oxr.session_state = XrSessionState.VISIBLE ∨
         s.oxr.session_state = XrSessionState.FOCUSED) := by
  unfold isRunning
  cases hs : s.oxr.session <;> cases hst : s.oxr.session_state <;> simp

/-- C1: after delivering any sequence of state-change events,
`isRunning` is true exactly when a session handle exists and the stored state
is READY, SYNCHRONIZED, VISIBLE or FOCUSED; it is false whenever no session
handle exists; and the stored state is the last delivered event's state. -/
theorem isRunning_after_events (env : HscEnv) (s : VAMR_Session)
    (evs : List XrEventDataSessionStateChanged) :
    (isRunning (handleEvents env evs s) = true ↔
      (handleEvents env evs s).oxr.session ≠ none ∧
        ((handleEvents env evs s).oxr.session_state = XrSessionState.READY ∨
         (handleEvents env evs s).oxr.session_state = XrSessionState.SYNCHRONIZED ∨
         (handleEvents env evs s).oxr.session_state = XrSessionState.VISIBLE ∨
         (handleEvents env evs s).oxr.session_state = XrSessionState.FOCUSED)) ∧
    ((handleEvents env evs s).oxr.session = none →
      isRunning (handleEvents env evs s) = false) ∧
    (∀ ev, evs.getLast? = some ev →
      (handleEvents env evs s).oxr.session_state = ev.state) := by
  refine ⟨isRunning_iff _, ?_, fun ev h => handleEvents_last_state env evs s ev h⟩
  intro hnone
  cases h : isRunning (handleEvents env evs s)
  · rfl
  · exact absurd ((isRunning_iff _).mp h).1 (by simp [hnone])

/-- C1 witness: the characterization applied to a concrete session and event
sequence. -/
theorem isRunning_after_events_witness :
    isRunning (handleEvents ⟨true, true, true⟩
      [⟨1, XrSessionState.SYNCHRONIZED⟩]
      { session0 with oxr := { oxr0 with session := some 1 } }) = true :=
  ((isRunning_after_events ⟨true, true, true⟩
      { session0 with oxr := { oxr0 with session := some 1 } }
      [⟨1, XrSessionState.SYNCHRONIZED⟩]).1).mpr (by decide)

/-! ### C2: READY event with a failing begin-call -/

/-- A live session (handle 1) whose last reported state was IDLE. -/
def liveIdleSession : VAMR_Session :=
  { session0 with oxr := { oxr0 with session := some 1, session_state := XrSessionState.IDLE } }

/-- C2 counterexample: with a live session in state IDLE, a READY event whose
`xrBeginSession` fails raises `SessionBeginError`, yet `isRunning()` flips
from false to true, because `handleStateChangeEvent` stores the new state
before attempting the begin call (line 208 precedes the `CHECK_XR` at 219). -/
theorem ready_begin_failure_counterexample :
    (handleStateChangeEvent ⟨false, true, true⟩ ⟨1, XrSessionState.READY⟩
        liveIdleSession).2 = Except.error VAMR_Error.SessionBeginError ∧
    isRunning liveIdleSession = false ∧
    isRunning (handleStateChangeEvent ⟨false, true, true⟩ ⟨1, XrSessionState.READY⟩
        liveIdleSession).1 = true := by
  decide

/-- C2 amended: a READY event whose begin-call fails raises
`SessionBeginError`, but the state READY has already been stored, so
afterwards `isRunning()` reports true exactly when a session handle exists
(it does not stay at its pre-event value). -/
theorem ready_begin_failure (env : HscEnv) (ev : XrEventDataSessionStateChanged)
    (s : VAMR_Session) (hst : ev.state = XrSessionState.READY)
    (hfail : env.beginOk = false) :
    (handleStateChangeEvent env ev s).2 = Except.error VAMR_Error.SessionBeginError ∧
    (handleStateChangeEvent env ev s).1.oxr.session_state = XrSessionState.READY ∧
    isRunning (handleStateChangeEvent env ev s).1 =
      (handleStateChangeEvent env ev s).1.oxr.session.isSome := by
  refine ⟨?_, ?_, ?_⟩
  · unfold handleStateChangeEvent
    simp [hst, hfail]
  · rw [handleStateChangeEvent_state, hst]
  · have h1 : (handleStateChangeEvent env ev s).1.oxr.session_state =
        XrSessionState.READY := by rw [handleStateChangeEvent_state, hst]
    unfold isRunning
    rw [h1]
    cases h : (handleStateChangeEvent env ev s).1.oxr.session <;> simp [h]

/-- C2 amended witness: the amended statement at a concrete live session. -/
theorem ready_begin_failure_witness :
    (handleStateChangeEvent ⟨false, true, false⟩ ⟨1, XrSessionState.READY⟩
        { session0 with oxr := { oxr0 with session := some 1 } }).2 =
      Except.error VAMR_Error.SessionBeginError ∧
    (handleStateChangeEvent ⟨false, true, false⟩ ⟨1, XrSessionState.READY⟩
        { session0 with oxr := { oxr0 with session := some 1 } }).1.oxr.session_state =
      XrSessionState.READY ∧
    isRunning (handleStateChangeEvent ⟨false, true, false⟩ ⟨1, XrSessionState.READY⟩
        { session0 with oxr := { oxr0 with session := some 1 } }).1 =
      (handleStateChangeEvent ⟨false, true, false⟩ ⟨1, XrSessionState.READY⟩
        { session0 with oxr := { oxr0 with session := some 1 } }).1.oxr.session.isSome :=
  ready_begin_failure ⟨false, true, false⟩ ⟨1, XrSessionState.READY⟩
    { session0 with oxr := { oxr0 with session := some 1 } } rfl rfl

/-! ### C3: STOPPING runs end() synchronously, EXITING / LOSS_PENDING destroy -/

/-- C3: a STOPPING event synchronously runs `end()` — the draw state is
discarded and the session handle stays intact — and returns
`SESSION_KEEP_ALIVE`; a subsequent EXITING or LOSS_PENDING event on the same
session returns `SESSION_DESTROY`. -/
theorem stopping_then_exiting (env : HscEnv) (s : VAMR_Session) (h : Nat)
    (hs : s.oxr.session = some h) (hend : env.endOk = true) :
    (handleStateChangeEvent env ⟨h, XrSessionState.STOPPING⟩ s).2 =
      Except.ok eLifeExpectancy.SESSION_KEEP_ALIVE ∧
    (handleStateChangeEvent env ⟨h, XrSessionState.STOPPING⟩ s).1.draw_info = none ∧
    (handleStateChangeEvent env ⟨h, XrSessionState.STOPPING⟩ s).1.oxr.session = some h ∧
    (handleStateChangeEvent env ⟨h, XrSessionState.EXITING⟩
        (handleStateChangeEvent env ⟨h, XrSessionState.STOPPING⟩ s).1).2 =
      Except.ok eLifeExpectancy.SESSION_DESTROY ∧
    (handleStateChangeEvent env ⟨h, XrSessionState.LOSS_PENDING⟩
        (handleStateChangeEvent env ⟨h, XrSessionState.STOPPING⟩ s).1).2 =
      Except.ok eLifeExpectancy.SESSION_DESTROY := by
  unfold handleStateChangeEvent sessionEnd unbindGraphicsContext
  simp [hs, hend]

/-- A live focused session with bound graphics context and active draw
state, as it exists while rendering. -/
def liveDrawSession : VAMR_Session :=
  { oxr := { oxr0 with session := some 1, session_state := XrSessionState.FOCUSED }
    gpu_ctx := some 3
    draw_info := some ⟨⟨0, false⟩, []⟩ }

/-- C3 witness: a live focused session with draw state; a STOPPING event then
EXITING behaves as stated. -/
theorem stopping_then_exiting_witness :
    (handleStateChangeEvent ⟨true, true, true⟩ ⟨1, XrSessionState.STOPPING⟩
        liveDrawSession).2 = Except.ok eLifeExpectancy.SESSION_KEEP_ALIVE ∧
    (handleStateChangeEvent ⟨true, true, true⟩ ⟨1, XrSessionState.STOPPING⟩
        liveDrawSession).1.draw_info = none ∧
    (handleStateChangeEvent ⟨true, true, true⟩ ⟨1, XrSessionState.STOPPING⟩
        liveDrawSession).1.oxr.session = some 1 ∧
    (handleStateChangeEvent ⟨true, true, true⟩ ⟨1, XrSessionState.EXITING⟩
        (handleStateChangeEvent ⟨true, true, true⟩ ⟨1, XrSessionState.STOPPING⟩
          liveDrawSession).1).2 = Except.ok eLifeExpectancy.SESSION_DESTROY ∧
    (handleStateChangeEvent ⟨true, true, true⟩ ⟨1, XrSessionState.LOSS_PENDING⟩
        (handleStateChangeEvent ⟨true, true, true⟩ ⟨1, XrSessionState.STOPPING⟩
          liveDrawSession).1).2 = Except.ok eLifeExpectancy.SESSION_DESTROY :=
  stopping_then_exiting ⟨true, true, true⟩ liveDrawSession 1 rfl rfl

/-! ### C9: the graphics context is released exactly once -/

/-- One teardown-time external call of the destructor
(`VAMR_Session::~VAMR_Session`, lines 70-87). -/
inductive TeardownCall
  | unbindCtx (ctx : Option Nat)
  | destroySwapchain (h : Nat)
  | destroySpace (h : Nat)
  | destroySession (h : Nat)
  deriving DecidableEq, Repr

/-- `VAMR_Session::~VAMR_Session`: unbind the graphics context, destroy every
swapchain in the list, destroy the reference space if created, destroy the
session if created, then null the session handle and reset the state.  The
returned list is the trace of teardown calls in order. -/
def destructor (registered : Bool) (s : VAMR_Session) :
    VAMR_Session × List TeardownCall :=
  let p := unbindGraphicsContext registered s
  let calls :=
    p.2.map TeardownCall.unbindCtx ++
    p.1.oxr.swapchains.map TeardownCall.destroySwapchain ++
    p.1.oxr.reference_space.toList.map TeardownCall.destroySpace ++
    p.1.oxr.session.toList.map TeardownCall.destroySession
  ({ p.1 with
      oxr := { p.1.oxr with
                swapchains := []
                session := none
                session_state := XrSessionState.UNKNOWN } },
   calls)

/-- The arguments of the unbind-callback invocations within a teardown
trace. -/
def unbindArgs (calls : List TeardownCall) : List (Option Nat) :=
  calls.filterMap fun c =>
    match c with
    | TeardownCall.unbindCtx a => some a
    | _ => none

theorem unbindArgs_append (a b : List TeardownCall) :
    unbindArgs (a ++ b) = unbindArgs a ++ unbindArgs b :=
  List.filterMap_append a b _

/-- The unbind-callback invocations of the destructor: exactly one, carrying
the context handle stored at destruction time, when a callback is
registered. -/
theorem unbindArgs_destructor (registered : Bool) (s : VAMR_Session) :
    unbindArgs (destructor registered s).2 =
      if registered then [s.gpu_ctx] else [] := by
  have hsw : unbindArgs (s.oxr.swapchains.map TeardownCall.destroySwapchain) = [] := by
    induction s.oxr.swapchains <;> simp_all [unbindArgs]
  have hsp : unbindArgs (s.oxr.reference_space.toList.map TeardownCall.destroySpace) = [] := by
    cases s.oxr.reference_space <;> simp [unbindArgs]
  have hss : unbindArgs (s.oxr.session.toList.map TeardownCall.destroySession) = [] := by
    cases s.oxr.session <;> simp [unbindArgs]
  cases registered <;>
    simp [destructor, unbindGraphicsContext, unbindArgs_append, hsw, hsp, hss, unbindArgs]

theorem destructor_gpu_ctx (registered : Bool) (s : VAMR_Session) :
    (destructor registered s).1.gpu_ctx = none := rfl

/-- C9: with an unbind callback registered and a bound (non-null) graphics
context, running `end()` followed by destruction invokes the unbind callback
with the bound handle exactly once (whether or not `xrEndSession` succeeded),
and the stored context handle is null afterwards. -/
theorem graphics_ctx_released_once (env : HscEnv) (s : VAMR_Session) (c : Nat)
    (hreg : env.unbindFnRegistered = true) (hc : s.gpu_ctx = some c) :
    ((sessionEnd env s).2.1 ++
        unbindArgs (destructor env.unbindFnRegistered (sessionEnd env s).1).2).count
      (some c) = 1 ∧
    (destructor env.unbindFnRegistered (sessionEnd env s).1).1.gpu_ctx = none := by
  refine ⟨?_, destructor_gpu_ctx _ _⟩
  rw [unbindArgs_destructor, hreg, if_pos rfl]
  unfold sessionEnd unbindGraphicsContext
  split
  · simp [hreg, hc, List.count_append, List.count_cons]
  · simp [hc, List.count_append, List.count_cons]

/-- C9 witness: the release-once property at a live session with bound
context handle 3. -/
theorem graphics_ctx_released_once_witness :
    ((sessionEnd ⟨true, true, true⟩ liveDrawSession).2.1 ++
        unbindArgs (destructor (⟨true, true, true⟩ : HscEnv).unbindFnRegistered
          (sessionEnd ⟨true, true, true⟩ liveDrawSession).1).2).count (some 3) = 1 ∧
    (destructor (⟨true, true, true⟩ : HscEnv).unbindFnRegistered
        (sessionEnd ⟨true, true, true⟩ liveDrawSession).1).1.gpu_ctx = none :=
  graphics_ctx_released_once ⟨true, true, true⟩ liveDrawSession 3 rfl rfl

/-! ### C6: the debug-timing rolling window (`print_debug_timings`) -/

/-- The window update of `print_debug_timings` (lines 359-363): when the
window already holds 8 (or more) entries the oldest is popped, then the new
duration is appended. -/
def record_frame_time (times : List ℚ) (d : ℚ) : List ℚ :=
  (if 8 ≤ times.length then times.drop 1 else times) ++ [d]

/-- Feeding a sequence of frame durations through `print_debug_timings`,
starting from the empty window a fresh `VAMR_DrawInfo` carries. -/
def feed_frame_times (ds : List ℚ) : List ℚ :=
  ds.foldl record_frame_time []

/-- The average frame time reported by `print_debug_timings` (line 371):
the running total `avg_ms_tot` accumulated by the loop, divided by the
window size. -/
def reported_avg (times : List ℚ) : ℚ :=
  times.foldl (· + ·) 0 / (times.length : ℚ)

theorem record_fold_spec (ds : List ℚ) : ∀ acc : List ℚ, acc.length ≤ 8 →
    List.foldl record_frame_time acc ds =
      (acc ++ ds).drop (acc.length + ds.length - 8) := by
  induction ds with
  | nil =>
      intro acc h
      simp [Nat.sub_eq_zero_of_le h]
  | cons d rest ih =>
      intro acc h
      simp only [List.foldl_cons]
      by_cases hlen : 8 ≤ acc.length
      · have hacc : acc.length = 8 := le_antisymm h hlen
        have hrec : record_frame_time acc d = acc.drop 1 ++ [d] := by
          simp [record_frame_time, hlen]
        have h' : (acc.drop 1 ++ [d]).length ≤ 8 := by
          simp [hacc]
        rw [hrec, ih _ h']
        have h1 : (1 : ℕ) ≤ acc.length := by omega
        have hsplit : acc.drop 1 ++ [d] ++ rest = (acc ++ [d] ++ rest).drop 1 := by
          rw [List.append_assoc, List.append_assoc,
              List.drop_append_of_le_length h1]
        rw [hsplit, List.drop_drop]
        have harr : acc ++ [d] ++ rest = acc ++ d :: rest := by
          rw [List.append_assoc]; rfl
        rw [harr]
        congr 1
        simp [hacc]
        omega
      · have hrec : record_frame_time acc d = acc ++ [d] := by
          simp [record_frame_time, hlen]
        have h' : (acc ++ [d]).length ≤ 8 := by
          simp only [List.length_append, List.length_singleton]
          omega
        rw [hrec, ih _ h']
        have harr : acc ++ [d] ++ rest = acc ++ d :: rest := by
          rw [List.append_assoc]; rfl
        rw [harr]
        congr 1
        simp
        omega

/-- C6: the rolling window never exceeds 8 entries; after feeding any
sequence of `n` durations exactly the last `min n 8` are retained (oldest
dropped first), and the reported average is the arithmetic mean of the
retained entries. -/
theorem frame_window_spec (ds : List ℚ) :
    (feed_frame_times ds).length ≤ 8 ∧
    (feed_frame_times ds).length = min ds.length 8 ∧
    feed_frame_times ds = ds.drop (ds.length - 8) ∧
    reported_avg (feed_frame_times ds) =
      (ds.drop (ds.length - 8)).sum / ((min ds.length 8 : ℕ) : ℚ) := by
  have h0 : feed_frame_times ds = ds.drop (ds.length - 8) := by
    have h := record_fold_spec ds [] (by simp)
    simpa [feed_frame_times] using h
  have hdl : (ds.drop (ds.length - 8)).length = min ds.length 8 := by
    rw [List.length_drop]
    omega
  refine ⟨?_, ?_, h0, ?_⟩
  · rw [h0, hdl]; omega
  · rw [h0, hdl]
  · unfold reported_avg
    rw [h0, hdl, ← List.sum_eq_foldl]

/-! ### C7: drawing a frame with should-render = false -/

/-- Environment for one `draw()` call: outcome of `xrWaitFrame` (the captured
frame state, or failure), and the outcomes of the other runtime calls of the
frame; `frameDuration` is the frame time the debug clock would measure. -/
structure DrawEnv where
  waitFrame : Option XrFrameState
  beginFrameOk : Bool
  locateViewsOk : Bool
  acquireOk : Bool
  waitImageOk : Bool
  releaseOk : Bool
  endFrameOk : Bool
  debugTime : Bool
  frameDuration : ℚ

/-- One externally visible runtime call of the frame loop. -/
inductive FrameCall
  | waitFrame
  | beginFrame
  | locateViews
  | acquireImage (sc : Nat)
  | waitImage (sc : Nat)
  | releaseImage (sc : Nat)
  | endFrame (layerCount : Nat)
  deriving DecidableEq, Repr

/-- `VAMR_Session::beginFrameDrawing` (lines 330-348): `xrWaitFrame`,
`xrBeginFrame`, then store the captured frame state into the draw info (a
null `m_draw_info` dereference is modelled as `OutOfBounds`). -/
def beginFrameDrawing (env : DrawEnv) (s : VAMR_Session) :
    VAMR_Session × List FrameCall × Option VAMR_Error :=
  match env.waitFrame with
  | none => (s, [FrameCall.waitFrame], some VAMR_Error.FrameSyncError)
  | some fs =>
    if env.beginFrameOk then
      match s.draw_info with
      | none => (s, [FrameCall.waitFrame, FrameCall.beginFrame], some VAMR_Error.OutOfBounds)
      | some di =>
          ({ s with draw_info := some { di with frame_state := fs } },
           [FrameCall.waitFrame, FrameCall.beginFrame], none)
    else
      (s, [FrameCall.waitFrame, FrameCall.beginFrame], some VAMR_Error.FrameBeginError)

/-- `VAMR_Session::drawView` (lines 441-481), reduced to its swapchain-image
protocol: acquire, wait, draw/submit, release on one swapchain. -/
def drawView (env : DrawEnv) (sc : Nat) : List FrameCall × Option VAMR_Error :=
  if env.acquireOk then
    if env.waitImageOk then
      ([FrameCall.acquireImage sc, FrameCall.waitImage sc, FrameCall.releaseImage sc],
       if env.releaseOk then none else some VAMR_Error.FrameSubmitError)
    else
      ([FrameCall.acquireImage sc, FrameCall.waitImage sc], some VAMR_Error.FrameSubmitError)
  else
    ([FrameCall.acquireImage sc], some VAMR_Error.FrameSubmitError)

/-- The per-view loop of `drawLayer` over the swapchain list. -/
def drawViews (env : DrawEnv) : List Nat → List FrameCall × Option VAMR_Error
  | [] => ([], none)
  | sc :: rest =>
    match drawView env sc with
    | (calls, some e) => (calls, some e)
    | (calls, none) =>
        let p := drawViews env rest
        (calls ++ p.1, p.2)

/-- `VAMR_Session::drawLayer` (lines 483-518): locate the views, then render
each swapchain in order. -/
def drawLayer (env : DrawEnv) (s : VAMR_Session) :
    List FrameCall × Option VAMR_Error :=
  if env.locateViewsOk then
    let p := drawViews env s.oxr.swapchains
    (FrameCall.locateViews :: p.1, p.2)
  else
    ([FrameCall.locateViews], some VAMR_Error.ViewLocateError)

/-- `VAMR_Session::endFrameDrawing` (lines 374-388): submit the frame with
`layerCount` composition layers at the captured display time; if debug timing
is on, push this frame's duration into the rolling window. -/
def endFrameDrawing (env : DrawEnv) (layerCount : Nat) (s : VAMR_Session) :
    VAMR_Session × List FrameCall × Option VAMR_Error :=
  match s.draw_info with
  | none => (s, [], some VAMR_Error.OutOfBounds)
  | some di =>
    if env.endFrameOk then
      if env.debugTime then
        let di2 :=
          { di with last_frame_times := record_frame_time di.last_frame_times env.frameDuration }
        ({ s with draw_info := some di2 }, [FrameCall.endFrame layerCount], none)
      else
        (s, [FrameCall.endFrame layerCount], none)
    else
      (s, [FrameCall.endFrame layerCount], some VAMR_Error.FrameSubmitError)

/-- `VAMR_Session::draw` (lines 390-405): begin the frame, render one
projection layer only if the captured frame state's should-render flag is
set, then end the frame with the collected layers (one or zero). -/
def draw (env : DrawEnv) (s : VAMR_Session) :
    VAMR_Session × List FrameCall × Option VAMR_Error :=
  let b := beginFrameDrawing env s
  match b.2.2 with
  | some e => (b.1, b.2.1, some e)
  | none =>
    match b.1.draw_info with
    | none => (b.1, b.2.1, some VAMR_Error.OutOfBounds)
    | some di =>
      if di.frame_state.shouldRender then
        let l := drawLayer env b.1
        match l.2 with
        | some e => (b.1, b.2.1 ++ l.1, some e)
        | none =>
            let p := endFrameDrawing env 1 b.1
            (p.1, b.2.1 ++ l.1 ++ p.2.1, p.2.2)
      else
        let p := endFrameDrawing env 0 b.1
        (p.1, b.2.1 ++ p.2.1, p.2.2)

/-- C7: when the captured frame state has should-render = false, the frame is
ended with zero composition layers and no swapchain image acquire, wait or
release call happens during the frame. -/
theorem draw_no_render (env : DrawEnv) (s : VAMR_Session)
    (fs : XrFrameState) (di : VAMR_DrawInfo)
    (hwf : env.waitFrame = some fs) (hsr : fs.shouldRender = false)
    (hb : env.beginFrameOk = true) (hdi : s.draw_info = some di) :
    FrameCall.endFrame 0 ∈ (draw env s).2.1 ∧
    (∀ n, FrameCall.endFrame n ∈ (draw env s).2.1 → n = 0) ∧
    (∀ sc, FrameCall.acquireImage sc ∉ (draw env s).2.1) ∧
    (∀ sc, FrameCall.waitImage sc ∉ (draw env s).2.1) ∧
    (∀ sc, FrameCall.releaseImage sc ∉ (draw env s).2.1) := by
  have htrace : (draw env s).2.1 =
      [FrameCall.waitFrame, FrameCall.beginFrame, FrameCall.endFrame 0] := by
    cases hend : env.endFrameOk <;> cases hdbg : env.debugTime <;>
      simp [draw, beginFrameDrawing, endFrameDrawing, hwf, hb, hdi, hsr, hend, hdbg]
  rw [htrace]
  refine ⟨by simp, ?_, ?_, ?_, ?_⟩ <;> intro x <;> simp

/-- A frame environment whose captured frame state has should-render
false. -/
def drawEnvNoRender : DrawEnv :=
  ⟨some ⟨0, false⟩, true, true, true, true, true, true, false, 0⟩

/-- C7 witness: the no-render frame property at a live session. -/
theorem draw_no_render_witness :
    FrameCall.endFrame 0 ∈ (draw drawEnvNoRender liveDrawSession).2.1 ∧
    (∀ n, FrameCall.endFrame n ∈ (draw drawEnvNoRender liveDrawSession).2.1 → n = 0) ∧
    (∀ sc, FrameCall.acquireImage sc ∉ (draw drawEnvNoRender liveDrawSession).2.1) ∧
    (∀ sc, FrameCall.waitImage sc ∉ (draw drawEnvNoRender liveDrawSession).2.1) ∧
    (∀ sc, FrameCall.releaseImage sc ∉ (draw drawEnvNoRender liveDrawSession).2.1) :=
  draw_no_render drawEnvNoRender liveDrawSession ⟨0, false⟩ ⟨⟨0, false⟩, []⟩
    rfl rfl rfl rfl

/-! ### Swapchain creation and format negotiation (C8, C10) -/

/-- Modelled from the spec: `VAMR_IGraphicsBinding::chooseSwapchainFormat`
(the graphics backend, outside this excerpt) holds a set of supported pixel
formats and, delegated the choice, picks a format from the runtime-offered
list that it supports, failing exactly when it accepts none of the offered
formats. -/
def chooseSwapchainFormat (supported offered : List Int) : Option Int :=
  offered.find? fun f => supported.contains f

/-- The create-info of one `xrCreateSwapchain` call (`XrSwapchainCreateInfo`
fields that vary: chosen format, and the sample count and extent copied
verbatim from the view configuration; usage flags and face/array/mip counts
are fixed). -/
structure SwapchainCreateInfo where
  format : Int
  sampleCount : Nat
  width : Nat
  height : Nat
  deriving DecidableEq, Repr

/-- Per-view runtime outcomes used by `prepareDrawing`'s loop body. -/
structure PerViewEnv where
  formats : Option (List Int)
  createOk : Bool
  imageCount : Option Nat
  imagesEnumOk : Bool

/-- `swapchain_create` (lines 258-292): enumerate the runtime's swapchain
formats, delegate the choice to the backend (`FormatNegotiationError` — the
`THROW_XR` at line 276 — when it accepts none), then create the swapchain
with the view's recommended sample count and extent. -/
def swapchain_create (supported : List Int) (pe : PerViewEnv)
    (xr_view : XrViewConfigurationView) (handle : Nat) :
    Except VAMR_Error (Nat × SwapchainCreateInfo) :=
  match pe.formats with
  | none => Except.error VAMR_Error.FormatEnumError
  | some swapchain_formats =>
    match chooseSwapchainFormat supported swapchain_formats with
    | none => Except.error VAMR_Error.FormatNegotiationError
    | some chosen_format =>
      if pe.createOk then
        Except.ok (handle,
          { format := chosen_format
            sampleCount := xr_view.recommendedSwapchainSampleCount
            width := xr_view.recommendedImageRectWidth
            height := xr_view.recommendedImageRectHeight })
      else Except.error VAMR_Error.SwapchainCreateError

/-- Modelled from the spec: `VAMR_IGraphicsBinding::createSwapchainImages`
(the graphics backend, outside this excerpt) allocates one backend-specific
image header per enumerated image and returns the vector of that length. -/
def createSwapchainImages (image_count : Nat) : List Nat :=
  List.range image_count

/-- `swapchain_images_create` (lines 243-256): enumerate the image count,
have the backend allocate that many image headers, then dereference
`images[0]` with no bounds check (modelled as `OutOfBounds` when the vector
is empty) for the second, populating enumeration call. -/
def swapchain_images_create (pe : PerViewEnv) : Except VAMR_Error (List Nat) :=
  match pe.imageCount with
  | none => Except.error VAMR_Error.SwapchainImagesError
  | some image_count =>
    let images := createSwapchainImages image_count
    match images with
    | [] => Except.error VAMR_Error.OutOfBounds
    | _ :: _ =>
      if pe.imagesEnumOk then Except.ok images
      else Except.error VAMR_Error.SwapchainImagesError

/-! ### `prepareDrawing` and `start` (C4, C5) -/

/-- Environment for one `start()` call: registration of the bind/unbind
callbacks, outcomes of the runtime calls in `start`'s chain, the
view-configuration list the runtime enumerates, the per-view outcomes for
the swapchain loop, and the backend's supported format set. -/
structure StartEnv where
  bindFnRegistered : Bool
  unbindFnRegistered : Bool
  getSystem : Option Nat
  bindResult : Option Nat
  versionOk : Bool
  createSessionOk : Bool
  viewEnumOk : Bool
  viewConfigs : List XrViewConfigurationView
  perView : Nat → PerViewEnv
  supportedFormats : List Int
  createSpaceOk : Bool

/-- `std::map::insert`: inserts only when the key is not yet present. -/
def mapInsert (m : List (Nat × List Nat)) (k : Nat) (v : List Nat) :
    List (Nat × List Nat) :=
  if m.any fun p => p.1 = k then m else m ++ [(k, v)]

/-- Deterministic handle allocated by the `xrCreateSwapchain` for view `i`. -/
def swapchainHandle (i : Nat) : Nat := 10 + i

/-- The successful body of one `prepareDrawing` loop iteration (lines
317-320): store the view's extent, push the swapchain handle and insert its
image list. -/
def loopStep (oxr : OpenXRSessionData) (view : XrViewConfigurationView)
    (h : Nat) (images : List Nat) : OpenXRSessionData :=
  { oxr with
    swapchain_image_width := view.recommendedImageRectWidth
    swapchain_image_height := view.recommendedImageRectHeight
    swapchains := oxr.swapchains ++ [h]
    swapchain_images := mapInsert oxr.swapchain_images h images }

@[simp] theorem loopStep_swapchains (oxr : OpenXRSessionData)
    (view : XrViewConfigurationView) (h : Nat) (images : List Nat) :
    (loopStep oxr view h images).swapchains = oxr.swapchains ++ [h] := rfl

@[simp] theorem loopStep_swapchain_images (oxr : OpenXRSessionData)
    (view : XrViewConfigurationView) (h : Nat) (images : List Nat) :
    (loopStep oxr view h images).swapchain_images =
      mapInsert oxr.swapchain_images h images := rfl

@[simp] theorem loopStep_session (oxr : OpenXRSessionData)
    (view : XrViewConfigurationView) (h : Nat) (images : List Nat) :
    (loopStep oxr view h images).session = oxr.session := rfl

@[simp] theorem loopStep_reference_space (oxr : OpenXRSessionData)
    (view : XrViewConfigurationView) (h : Nat) (images : List Nat) :
    (loopStep oxr view h images).reference_space = oxr.reference_space := rfl

@[simp] theorem loopStep_views (oxr : OpenXRSessionData)
    (view : XrViewConfigurationView) (h : Nat) (images : List Nat) :
    (loopStep oxr view h images).views = oxr.views := rfl

@[simp] theorem loopStep_width (oxr : OpenXRSessionData)
    (view : XrViewConfigurationView) (h : Nat) (images : List Nat) :
    (loopStep oxr view h images).swapchain_image_width =
      view.recommendedImageRectWidth := rfl

@[simp] theorem loopStep_height (oxr : OpenXRSessionData)
    (view : XrViewConfigurationView) (h : Nat) (images : List Nat) :
    (loopStep oxr view h images).swapchain_image_height =
      view.recommendedImageRectHeight := rfl

/-- The per-view loop of `prepareDrawing` (lines 312-323): create the
swapchain, create its images (on failure the scoped `unique_oxr_ptr`
destroys the fresh swapchain, which is then never pushed), apply the
successful step.  Returns the updated data block, the handles and
create-infos of every successful `xrCreateSwapchain`, and the first
error. -/
def prepareLoop (env : StartEnv) :
    List XrViewConfigurationView → Nat → OpenXRSessionData →
    OpenXRSessionData × List Nat × List SwapchainCreateInfo × Option VAMR_Error
  | [], _, oxr => (oxr, [], [], none)
  | view :: rest, i, oxr =>
    match swapchain_create env.supportedFormats (env.perView i) view (swapchainHandle i) with
    | Except.error e => (oxr, [], [], some e)
    | Except.ok (h, info) =>
      match swapchain_images_create (env.perView i) with
      | Except.error e => (oxr, [h], [info], some e)
      | Except.ok images =>
        let p := prepareLoop env rest (i + 1) (loopStep oxr view h images)
        (p.1, h :: p.2.1, info :: p.2.2.1, p.2.2.2)

/-- `VAMR_Session::prepareDrawing` (lines 294-328): enumerate the view
configurations, run the per-view loop, size the view vector to the view
count, and allocate a fresh draw info. -/
def prepareDrawing (env : StartEnv) (s : VAMR_Session) :
    VAMR_Session × List Nat × List SwapchainCreateInfo × Option VAMR_Error :=
  if env.viewEnumOk then
    let p := prepareLoop env env.viewConfigs 0 s.oxr
    match p.2.2.2 with
    | some e => ({ s with oxr := p.1 }, p.2.1, p.2.2.1, some e)
    | none =>
        ({ s with
            oxr := { p.1 with views := List.replicate env.viewConfigs.length () }
            draw_info := some { frame_state := ⟨0, false⟩, last_frame_times := [] } },
         p.2.1, p.2.2.1, none)
  else
    (s, [], [], some VAMR_Error.ViewEnumError)

/-- Ghost record of what a `start()` call created, for teardown reasoning. -/
structure StartTrace where
  createdSession : Option Nat
  createdSpace : Option Nat
  createdSwapchains : List Nat
  createdSwapchainInfos : List SwapchainCreateInfo
  deriving DecidableEq, Repr

/-- `VAMR_Session::start` (lines 144-189): check that a bind callback is
registered, query the system, bind the graphics context (fail if it yields
none), check version requirements, create the runtime session, run
`prepareDrawing`, and finally create the reference space.  State mutations
made before a failing step persist. -/
def start (env : StartEnv) (s : VAMR_Session) :
    VAMR_Session × StartTrace × Option VAMR_Error :=
  if env.bindFnRegistered then
    match env.getSystem with
    | none => (s, ⟨none, none, [], []⟩, some VAMR_Error.RuntimeQueryError)
    | some sys =>
      let sA : VAMR_Session :=
        { s with oxr := { s.oxr with system_id := some sys }, gpu_ctx := env.bindResult }
      match env.bindResult with
      | none => (sA, ⟨none, none, [], []⟩, some VAMR_Error.ConfigurationError)
      | some _ =>
        if env.versionOk then
          if env.createSessionOk then
            let sB : VAMR_Session := { sA with oxr := { sA.oxr with session := some 1 } }
            let p := prepareDrawing env sB
            match p.2.2.2 with
            | some e => (p.1, ⟨some 1, none, p.2.1, p.2.2.1⟩, some e)
            | none =>
              if env.createSpaceOk then
                ({ p.1 with oxr := { p.1.oxr with reference_space := some 2 } },
                 ⟨some 1, some 2, p.2.1, p.2.2.1⟩, none)
              else
                (p.1, ⟨some 1, none, p.2.1, p.2.2.1⟩, some VAMR_Error.SpaceCreateError)
          else (sA, ⟨none, none, [], []⟩, some VAMR_Error.SessionCreateError)
        else (sA, ⟨none, none, [], []⟩, some VAMR_Error.CapabilityError)
  else (s, ⟨none, none, [], []⟩, some VAMR_Error.ConfigurationError)


/-! ### Lemmas about the swapchain loop -/

theorem swapchain_create_ok_info (supported : List Int) (pe : PerViewEnv)
    (view : XrViewConfigurationView) (handle h : Nat) (info : SwapchainCreateInfo)
    (hok : swapchain_create supported pe view handle = Except.ok (h, info)) :
    h = handle ∧ info.sampleCount = view.recommendedSwapchainSampleCount ∧
    info.width = view.recommendedImageRectWidth ∧
    info.height = view.recommendedImageRectHeight := by
  unfold swapchain_create at hok
  split at hok
  · exact absurd hok (by simp)
  split at hok
  · exact absurd hok (by simp)
  split at hok
  · rw [Except.ok.injEq, Prod.mk.injEq] at hok
    obtain ⟨h1, h2⟩ := hok
    subst h1
    subst h2
    exact ⟨rfl, rfl, rfl, rfl⟩
  · exact absurd hok (by simp)

theorem swapchain_images_create_ok_ne_nil (pe : PerViewEnv) (l : List Nat)
    (hok : swapchain_images_create pe = Except.ok l) : l ≠ [] := by
  intro hl
  subst hl
  unfold swapchain_images_create at hok
  split at hok <;> try simp_all
  split at hok <;> try simp_all
  split at hok <;> simp_all

theorem mapInsert_fresh (m : List (Nat × List Nat)) (k : Nat) (v : List Nat)
    (hfresh : ∀ p ∈ m, p.1 ≠ k) : mapInsert m k v = m ++ [(k, v)] := by
  unfold mapInsert
  rw [if_neg]
  simp only [List.any_eq_true, not_exists, not_and]
  intro p hp
  simp [hfresh p hp]

theorem prepareLoop_pres (env : StartEnv) (views : List XrViewConfigurationView) :
    ∀ (i : Nat) (oxr : OpenXRSessionData),
      (prepareLoop env views i oxr).1.session = oxr.session ∧
      (prepareLoop env views i oxr).1.reference_space = oxr.reference_space ∧
      (prepareLoop env views i oxr).1.views = oxr.views := by
  induction views with
  | nil => intro i oxr; simp [prepareLoop]
  | cons view rest ih =>
      intro i oxr
      cases hsc : swapchain_create env.supportedFormats (env.perView i) view
          (swapchainHandle i) with
      | error e => simp [prepareLoop, hsc]
      | ok pr =>
          obtain ⟨h, info⟩ := pr
          cases hsi : swapchain_images_create (env.perView i) with
          | error e => simp [prepareLoop, hsc, hsi]
          | ok images =>
              simp only [prepareLoop, hsc, hsi]
              obtain ⟨p1, p2, p3⟩ := ih (i + 1) (loopStep oxr view h images)
              exact ⟨by rw [p1]; simp, by rw [p2]; simp, by rw [p3]; simp⟩

theorem prepareLoop_sub (env : StartEnv) (views : List XrViewConfigurationView) :
    ∀ (i : Nat) (oxr : OpenXRSessionData) (h : Nat),
      h ∈ (prepareLoop env views i oxr).1.swapchains →
      h ∈ oxr.swapchains ∨ h ∈ (prepareLoop env views i oxr).2.1 := by
  induction views with
  | nil => intro i oxr h hmem; simp [prepareLoop] at hmem; exact Or.inl hmem
  | cons view rest ih =>
      intro i oxr h hmem
      cases hsc : swapchain_create env.supportedFormats (env.perView i) view
          (swapchainHandle i) with
      | error e =>
          simp only [prepareLoop, hsc] at hmem ⊢
          exact Or.inl hmem
      | ok pr =>
          obtain ⟨hh, info⟩ := pr
          cases hsi : swapchain_images_create (env.perView i) with
          | error e =>
              simp only [prepareLoop, hsc, hsi] at hmem ⊢
              exact Or.inl hmem
          | ok images =>
              simp only [prepareLoop, hsc, hsi] at hmem ⊢
              rcases ih (i + 1) (loopStep oxr view hh images) h hmem with hold | hnew
              · rw [loopStep_swapchains] at hold
                simp only [List.mem_append, List.mem_singleton] at hold
                rcases hold with hold | hold
                · exact Or.inl hold
                · exact Or.inr (by simp [hold])
              · exact Or.inr (by simp [hnew])

theorem prepareLoop_ok_spec (env : StartEnv) (views : List XrViewConfigurationView) :
    ∀ (i : Nat) (oxr : OpenXRSessionData),
      (∀ p ∈ oxr.swapchain_images, p.1 < 10 + i) →
      oxr.swapchains.length = oxr.swapchain_images.length →
      (∀ p ∈ oxr.swapchain_images, p.2 ≠ []) →
      (prepareLoop env views i oxr).2.2.2 = none →
      (prepareLoop env views i oxr).1.swapchains.length =
        oxr.swapchains.length + views.length ∧
      (prepareLoop env views i oxr).1.swapchain_images.length =
        oxr.swapchain_images.length + views.length ∧
      (∀ p ∈ (prepareLoop env views i oxr).1.swapchain_images, p.2 ≠ []) ∧
      (∀ p ∈ (prepareLoop env views i oxr).1.swapchain_images,
        p.1 < 10 + i + views.length) := by
  induction views with
  | nil =>
      intro i oxr hkey hlen hne _
      refine ⟨by simp [prepareLoop], by simp [prepareLoop], ?_, ?_⟩
      · simpa [prepareLoop] using hne
      · intro p hp
        have := hkey p (by simpa [prepareLoop] using hp)
        omega
  | cons view rest ih =>
      intro i oxr hkey hlen hne hsucc
      cases hsc : swapchain_create env.supportedFormats (env.perView i) view
          (swapchainHandle i) with
      | error e => simp [prepareLoop, hsc] at hsucc
      | ok pr =>
          obtain ⟨hh, info⟩ := pr
          cases hsi : swapchain_images_create (env.perView i) with
          | error e => simp [prepareLoop, hsc, hsi] at hsucc
          | ok images =>
              have hhid : hh = swapchainHandle i :=
                (swapchain_create_ok_info _ _ _ _ _ _ hsc).1
              subst hhid
              simp only [prepareLoop, hsc, hsi] at hsucc ⊢
              have hfresh : ∀ p ∈ oxr.swapchain_images, p.1 ≠ swapchainHandle i := by
                intro p hp
                have := hkey p hp
                simp only [swapchainHandle]
                omega
              have hins := mapInsert_fresh oxr.swapchain_images (swapchainHandle i)
                images hfresh
              have hkey2 : ∀ p ∈ (loopStep oxr view (swapchainHandle i)
                  images).swapchain_images, p.1 < 10 + (i + 1) := by
                rw [loopStep_swapchain_images, hins]
                intro p hp
                rcases List.mem_append.mp hp with hp | hp
                · have := hkey p hp; omega
                · simp only [List.mem_singleton] at hp
                  subst hp
                  simp [swapchainHandle]
              have hlen2 : (loopStep oxr view (swapchainHandle i) images).swapchains.length =
                  (loopStep oxr view (swapchainHandle i) images).swapchain_images.length := by
                rw [loopStep_swapchains, loopStep_swapchain_images, hins]
                simp [hlen]
              have hne2 : ∀ p ∈ (loopStep oxr view (swapchainHandle i)
                  images).swapchain_images, p.2 ≠ [] := by
                rw [loopStep_swapchain_images, hins]
                intro p hp
                rcases List.mem_append.mp hp with hp | hp
                · exact hne p hp
                · simp only [List.mem_singleton] at hp
                  subst hp
                  exact swapchain_images_create_ok_ne_nil _ _ hsi
              obtain ⟨h1, h2, h3, h4⟩ :=
                ih (i + 1) (loopStep oxr view (swapchainHandle i) images)
                  hkey2 hlen2 hne2 hsucc
              refine ⟨?_, ?_, h3, ?_⟩
              · have e1 : (loopStep oxr view (swapchainHandle i)
                    images).swapchains.length = oxr.swapchains.length + 1 := by
                  rw [loopStep_swapchains]
                  simp
                rw [h1, e1]
                simp only [List.length_cons]
                omega
              · have e2 : (loopStep oxr view (swapchainHandle i)
                    images).swapchain_images.length = oxr.swapchain_images.length + 1 := by
                  rw [loopStep_swapchain_images, hins]
                  simp
                rw [h2, e2]
                simp only [List.length_cons]
                omega
              · intro p hp
                have := h4 p hp
                simp only [List.length_cons]
                omega

theorem prepareLoop_infos_dims (env : StartEnv) (views : List XrViewConfigurationView) :
    ∀ (i : Nat) (oxr : OpenXRSessionData),
      ∀ info ∈ (prepareLoop env views i oxr).2.2.1,
        ∃ v ∈ views, info.sampleCount = v.recommendedSwapchainSampleCount ∧
          info.width = v.recommendedImageRectWidth ∧
          info.height = v.recommendedImageRectHeight := by
  induction views with
  | nil => intro i oxr info hmem; simp [prepareLoop] at hmem
  | cons view rest ih =>
      intro i oxr info hmem
      cases hsc : swapchain_create env.supportedFormats (env.perView i) view
          (swapchainHandle i) with
      | error e => simp [prepareLoop, hsc] at hmem
      | ok pr =>
          obtain ⟨hh, info0⟩ := pr
          obtain ⟨-, hs, hw, hht⟩ := swapchain_create_ok_info _ _ _ _ _ _ hsc
          cases hsi : swapchain_images_create (env.perView i) with
          | error e =>
              simp only [prepareLoop, hsc, hsi, List.mem_singleton] at hmem
              subst hmem
              exact ⟨view, by simp, hs, hw, hht⟩
          | ok images =>
              simp only [prepareLoop, hsc, hsi, List.mem_cons] at hmem
              rcases hmem with hmem | hmem
              · subst hmem
                exact ⟨view, by simp, hs, hw, hht⟩
              · obtain ⟨v, hv, hrest⟩ := ih (i + 1) _ info hmem
                exact ⟨v, by simp [hv], hrest⟩

theorem prepareLoop_stored_last (env : StartEnv) (views : List XrViewConfigurationView) :
    ∀ (i : Nat) (oxr : OpenXRSessionData) (v : XrViewConfigurationView),
      (prepareLoop env views i oxr).2.2.2 = none →
      views.getLast? = some v →
      (prepareLoop env views i oxr).1.swapchain_image_width =
        v.recommendedImageRectWidth ∧
      (prepareLoop env views i oxr).1.swapchain_image_height =
        v.recommendedImageRectHeight := by
  induction views with
  | nil => intro i oxr v _ hlast; simp at hlast
  | cons view rest ih =>
      intro i oxr v hsucc hlast
      cases hsc : swapchain_create env.supportedFormats (env.perView i) view
          (swapchainHandle i) with
      | error e => simp [prepareLoop, hsc] at hsucc
      | ok pr =>
          obtain ⟨hh, info0⟩ := pr
          cases hsi : swapchain_images_create (env.perView i) with
          | error e => simp [prepareLoop, hsc, hsi] at hsucc
          | ok images =>
              simp only [prepareLoop, hsc, hsi] at hsucc ⊢
              rcases rest with _ | ⟨v2, rest2⟩
              · simp only [List.getLast?_singleton, Option.some.injEq] at hlast
                subst hlast
                simp [prepareLoop]
              · have hlast2 : (v2 :: rest2).getLast? = some v := by
                  rwa [List.getLast?_cons_cons] at hlast
                exact ih (i + 1) _ v hsucc hlast2

/-! ### Lemmas about `prepareDrawing` -/

theorem prepareDrawing_pres (env : StartEnv) (s : VAMR_Session) :
    (prepareDrawing env s).1.oxr.session = s.oxr.session ∧
    (prepareDrawing env s).1.oxr.reference_space = s.oxr.reference_space := by
  unfold prepareDrawing
  dsimp only
  split
  · obtain ⟨p1, p2, -⟩ := prepareLoop_pres env env.viewConfigs 0 s.oxr
    split
    · exact ⟨p1, p2⟩
    · exact ⟨p1, p2⟩
  · exact ⟨rfl, rfl⟩

theorem prepareDrawing_sub (env : StartEnv) (s : VAMR_Session) :
    ∀ h ∈ (prepareDrawing env s).1.oxr.swapchains,
      h ∈ s.oxr.swapchains ∨ h ∈ (prepareDrawing env s).2.1 := by
  unfold prepareDrawing
  dsimp only
  split
  · split
    · intro h hmem
      exact prepareLoop_sub env env.viewConfigs 0 s.oxr h hmem
    · intro h hmem
      exact prepareLoop_sub env env.viewConfigs 0 s.oxr h hmem
  · intro h hmem
    exact Or.inl hmem

theorem prepareDrawing_ok_spec (env : StartEnv) (s : VAMR_Session)
    (hkey : ∀ p ∈ s.oxr.swapchain_images, p.1 < 10)
    (hlen : s.oxr.swapchains.length = s.oxr.swapchain_images.length)
    (hne : ∀ p ∈ s.oxr.swapchain_images, p.2 ≠ [])
    (hok : (prepareDrawing env s).2.2.2 = none) :
    (prepareDrawing env s).1.oxr.swapchains.length =
      s.oxr.swapchains.length + env.viewConfigs.length ∧
    (prepareDrawing env s).1.oxr.swapchain_images.length =
      s.oxr.swapchain_images.length + env.viewConfigs.length ∧
    (∀ p ∈ (prepareDrawing env s).1.oxr.swapchain_images, p.2 ≠ []) ∧
    (prepareDrawing env s).1.oxr.views.length = env.viewConfigs.length ∧
    (prepareDrawing env s).1.draw_info = some ⟨⟨0, false⟩, []⟩ := by
  unfold prepareDrawing at hok ⊢
  dsimp only at hok ⊢
  split at hok
  · rename_i hview
    split at hok
    · simp at hok
    · rename_i hloop
      rw [if_pos hview]
      obtain ⟨l1, l2, l3, l4⟩ := prepareLoop_ok_spec env env.viewConfigs 0 s.oxr
        (by simpa using hkey) hlen hne hloop
      exact ⟨l1, l2, l3, by simp, rfl⟩
  · simp at hok

theorem prepareDrawing_trace (env : StartEnv) (s : VAMR_Session) :
    (prepareDrawing env s).2.1 = (prepareLoop env env.viewConfigs 0 s.oxr).2.1 ∨
      (prepareDrawing env s).2.1 = [] := by
  unfold prepareDrawing
  dsimp only
  split
  · split
    · exact Or.inl rfl
    · exact Or.inl rfl
  · exact Or.inr rfl

theorem prepareDrawing_infos_dims (env : StartEnv) (s : VAMR_Session) :
    ∀ info ∈ (prepareDrawing env s).2.2.1,
      ∃ v ∈ env.viewConfigs, info.sampleCount = v.recommendedSwapchainSampleCount ∧
        info.width = v.recommendedImageRectWidth ∧
        info.height = v.recommendedImageRectHeight := by
  unfold prepareDrawing
  dsimp only
  split
  · split
    · intro info hmem
      exact prepareLoop_infos_dims env env.viewConfigs 0 s.oxr info hmem
    · intro info hmem
      exact prepareLoop_infos_dims env env.viewConfigs 0 s.oxr info hmem
  · intro info hmem
    simp at hmem

theorem prepareDrawing_stored_last (env : StartEnv) (s : VAMR_Session)
    (v : XrViewConfigurationView)
    (hok : (prepareDrawing env s).2.2.2 = none)
    (hlast : env.viewConfigs.getLast? = some v) :
    (prepareDrawing env s).1.oxr.swapchain_image_width =
      v.recommendedImageRectWidth ∧
    (prepareDrawing env s).1.oxr.swapchain_image_height =
      v.recommendedImageRectHeight := by
  unfold prepareDrawing at hok ⊢
  dsimp only at hok ⊢
  split at hok
  · rename_i hview
    split at hok
    · simp at hok
    · rename_i hloop
      rw [if_pos hview]
      exact prepareLoop_stored_last env env.viewConfigs 0 s.oxr v hloop hlast
  · simp at hok

/-! ### Relating `start`'s final state to what it created -/

theorem start_state_trace (env : StartEnv) :
    (start env session0).1.oxr.session = (start env session0).2.1.createdSession ∧
    (start env session0).1.oxr.reference_space =
      (start env session0).2.1.createdSpace ∧
    (∀ h ∈ (start env session0).1.oxr.swapchains,
      h ∈ (start env session0).2.1.createdSwapchains) := by
  cases hbf : env.bindFnRegistered
  · simp [start, hbf, session0, oxr0]
  · cases hgs : env.getSystem with
    | none => simp [start, hbf, hgs, session0, oxr0]
    | some sys =>
      cases hbr : env.bindResult with
      | none => simp [start, hbf, hgs, hbr, session0, oxr0]
      | some c =>
        cases hv : env.versionOk
        · simp [start, hbf, hgs, hbr, hv, session0, oxr0]
        · cases hcs : env.createSessionOk
          · simp [start, hbf, hgs, hbr, hv, hcs, session0, oxr0]
          · simp only [start, hbf, hgs, hbr, hv, hcs, if_true]
            refine ⟨?_, ?_, ?_⟩
            · split
              · rw [(prepareDrawing_pres env _).1]
              · split
                · rw [show ∀ (x : VAMR_Session) (o : OpenXRSessionData),
                      ({ x with oxr := o } : VAMR_Session).oxr = o from fun _ _ => rfl]
                  rw [(prepareDrawing_pres env _).1]
                · rw [(prepareDrawing_pres env _).1]
            · split
              · rw [(prepareDrawing_pres env _).2]
                simp [session0, oxr0]
              · split
                · rfl
                · rw [(prepareDrawing_pres env _).2]
                  simp [session0, oxr0]
            · split
              · intro h hmem
                rcases prepareDrawing_sub env _ h hmem with h1 | h2
                · simp [session0, oxr0] at h1
                · exact h2
              · split
                · intro h hmem
                  rcases prepareDrawing_sub env _ h hmem with h1 | h2
                  · simp [session0, oxr0] at h1
                  · exact h2
                · intro h hmem
                  rcases prepareDrawing_sub env _ h hmem with h1 | h2
                  · simp [session0, oxr0] at h1
                  · exact h2

theorem destructor_calls_shape (registered : Bool) (s : VAMR_Session) :
    (destructor registered s).2 =
      (if registered then [TeardownCall.unbindCtx s.gpu_ctx] else []) ++
      s.oxr.swapchains.map TeardownCall.destroySwapchain ++
      s.oxr.reference_space.toList.map TeardownCall.destroySpace ++
      s.oxr.session.toList.map TeardownCall.destroySession := by
  cases registered <;> simp [destructor, unbindGraphicsContext]

/-- C5: for every `start()` that fails at any intermediate step, the
destructor's teardown trace has the shape "unbind callback (if registered)
first, then one destroy per held swapchain, then the reference space, then
the session" — and every destroy call targets a handle the failed `start`
actually created (held handles are `some`-valued, so no null or never-created
handle is ever destroyed). -/
theorem failed_start_destruction (env : StartEnv) (e : VAMR_Error)
    (_hfail : (start env session0).2.2 = some e) :
    (destructor env.unbindFnRegistered (start env session0).1).2 =
      (if env.unbindFnRegistered then
        [TeardownCall.unbindCtx (start env session0).1.gpu_ctx] else []) ++
      (start env session0).1.oxr.swapchains.map TeardownCall.destroySwapchain ++
      (start env session0).1.oxr.reference_space.toList.map TeardownCall.destroySpace ++
      (start env session0).1.oxr.session.toList.map TeardownCall.destroySession ∧
    (∀ h, TeardownCall.destroySwapchain h ∈
        (destructor env.unbindFnRegistered (start env session0).1).2 →
      h ∈ (start env session0).2.1.createdSwapchains) ∧
    (∀ h, TeardownCall.destroySpace h ∈
        (destructor env.unbindFnRegistered (start env session0).1).2 →
      (start env session0).2.1.createdSpace = some h) ∧
    (∀ h, TeardownCall.destroySession h ∈
        (destructor env.unbindFnRegistered (start env session0).1).2 →
      (start env session0).2.1.createdSession = some h) := by
  have hshape := destructor_calls_shape env.unbindFnRegistered (start env session0).1
  obtain ⟨t1, t2, t3⟩ := start_state_trace env
  refine ⟨hshape, ?_, ?_, ?_⟩
  · intro h hmem
    rw [hshape] at hmem
    simp at hmem
    exact t3 h hmem
  · intro h hmem
    rw [hshape] at hmem
    simp at hmem
    rw [← t2]
    exact hmem
  · intro h hmem
    rw [hshape] at hmem
    simp at hmem
    rw [← t1]
    exact hmem

/-- Per-view runtime outcomes where everything succeeds (one image per
swapchain, runtime offers format 5). -/
def pvGood : PerViewEnv := ⟨some [5], true, some 1, true⟩

/-- A fully successful `start` environment except that reference-space
creation fails (so `start` fails at its last step, after the swapchains
exist). -/
def envNoSpace : StartEnv :=
  ⟨true, true, some 7, some 3, true, true, true,
    [⟨100, 100, 1⟩, ⟨100, 100, 1⟩], fun _ => pvGood, [5], false⟩

/-- A fully successful stereo `start` environment with identical recommended
dimensions for both views. -/
def envSameDims : StartEnv :=
  ⟨true, true, some 7, some 3, true, true, true,
    [⟨100, 100, 1⟩, ⟨100, 100, 1⟩], fun _ => pvGood, [5], true⟩

/-- A fully successful stereo `start` environment whose two views recommend
different dimensions. -/
def envDiffDims : StartEnv :=
  ⟨true, true, some 7, some 3, true, true, true,
    [⟨100, 100, 1⟩, ⟨200, 200, 1⟩], fun _ => pvGood, [5], true⟩

/-- C5 witness: the teardown properties at a concrete `start` that failed at
reference-space creation (after both swapchains were created). -/
theorem failed_start_destruction_witness :
    (destructor envNoSpace.unbindFnRegistered (start envNoSpace session0).1).2 =
      (if envNoSpace.unbindFnRegistered then
        [TeardownCall.unbindCtx (start envNoSpace session0).1.gpu_ctx] else []) ++
      (start envNoSpace session0).1.oxr.swapchains.map TeardownCall.destroySwapchain ++
      (start envNoSpace session0).1.oxr.reference_space.toList.map
        TeardownCall.destroySpace ++
      (start envNoSpace session0).1.oxr.session.toList.map
        TeardownCall.destroySession ∧
    (∀ h, TeardownCall.destroySwapchain h ∈
        (destructor envNoSpace.unbindFnRegistered (start envNoSpace session0).1).2 →
      h ∈ (start envNoSpace session0).2.1.createdSwapchains) ∧
    (∀ h, TeardownCall.destroySpace h ∈
        (destructor envNoSpace.unbindFnRegistered (start envNoSpace session0).1).2 →
      (start envNoSpace session0).2.1.createdSpace = some h) ∧
    (∀ h, TeardownCall.destroySession h ∈
        (destructor envNoSpace.unbindFnRegistered (start envNoSpace session0).1).2 →
      (start envNoSpace session0).2.1.createdSession = some h) :=
  failed_start_destruction envNoSpace VAMR_Error.SpaceCreateError (by decide)

/-- The per-view loop creates each swapchain with its own view's recommended
extent: on success, the create-info extents are, in order, exactly the
views' recommended extents. -/
theorem prepareLoop_infos_map (env : StartEnv) (views : List XrViewConfigurationView) :
    ∀ (i : Nat) (oxr : OpenXRSessionData),
      (prepareLoop env views i oxr).2.2.2 = none →
      (prepareLoop env views i oxr).2.2.1.map
          (fun info => (info.width, info.height)) =
        views.map
          (fun v => (v.recommendedImageRectWidth, v.recommendedImageRectHeight)) := by
  induction views with
  | nil => intro i oxr _; simp [prepareLoop]
  | cons view rest ih =>
      intro i oxr hsucc
      cases hsc : swapchain_create env.supportedFormats (env.perView i) view
          (swapchainHandle i) with
      | error e => simp [prepareLoop, hsc] at hsucc
      | ok pr =>
          obtain ⟨hdl, info0⟩ := pr
          obtain ⟨-, -, hw, hht⟩ := swapchain_create_ok_info _ _ _ _ _ _ hsc
          cases hsi : swapchain_images_create (env.perView i) with
          | error e => simp [prepareLoop, hsc, hsi] at hsucc
          | ok images =>
              simp only [prepareLoop, hsc, hsi] at hsucc ⊢
              simp only [List.map_cons]
              rw [ih (i + 1) _ hsucc, hw, hht]

theorem prepareDrawing_infos_map (env : StartEnv) (s : VAMR_Session)
    (hok : (prepareDrawing env s).2.2.2 = none) :
    (prepareDrawing env s).2.2.1.map (fun info => (info.width, info.height)) =
      env.viewConfigs.map
        (fun v => (v.recommendedImageRectWidth, v.recommendedImageRectHeight)) := by
  unfold prepareDrawing at hok ⊢
  dsimp only at hok ⊢
  split at hok
  · rename_i hview
    split at hok
    · simp at hok
    · rename_i hloop
      rw [if_pos hview]
      exact prepareLoop_infos_map env env.viewConfigs 0 s.oxr hloop
  · simp at hok

/-- C4 amended: after every successful `start`, the swapchain list, the
swapchain-to-images map and the view list all have the negotiated view count
as length, and every swapchain maps to a non-empty image list; each
swapchain is created with its own view's recommended extent (in order), and
the stored extent is the last view's — so whenever the runtime recommends
the same extent for every view (the stereo-typical case), every swapchain is
created with that shared extent and it is also the stored extent. -/
theorem start_prepared_invariants (env : StartEnv)
    (hok : (start env session0).2.2 = none) :
    (start env session0).1.oxr.swapchains.length = env.viewConfigs.length ∧
    (start env session0).1.oxr.swapchain_images.length = env.viewConfigs.length ∧
    (start env session0).1.oxr.views.length = env.viewConfigs.length ∧
    (∀ p ∈ (start env session0).1.oxr.swapchain_images, p.2 ≠ []) ∧
    ((start env session0).2.1.createdSwapchainInfos.map
        (fun info => (info.width, info.height)) =
      env.viewConfigs.map
        (fun v => (v.recommendedImageRectWidth, v.recommendedImageRectHeight))) ∧
    (∀ v, env.viewConfigs.getLast? = some v →
      (start env session0).1.oxr.swapchain_image_width =
        v.recommendedImageRectWidth ∧
      (start env session0).1.oxr.swapchain_image_height =
        v.recommendedImageRectHeight) ∧
    (∀ w hh, (∀ v ∈ env.viewConfigs, v.recommendedImageRectWidth = w ∧
        v.recommendedImageRectHeight = hh) →
      (∀ info ∈ (start env session0).2.1.createdSwapchainInfos,
        info.width = w ∧ info.height = hh) ∧
      (env.viewConfigs ≠ [] →
        (start env session0).1.oxr.swapchain_image_width = w ∧
        (start env session0).1.oxr.swapchain_image_height = hh)) := by
  cases hbf : env.bindFnRegistered
  · simp [start, hbf] at hok
  · cases hgs : env.getSystem with
    | none => simp [start, hbf, hgs] at hok
    | some sys =>
      cases hbr : env.bindResult with
      | none => simp [start, hbf, hgs, hbr] at hok
      | some c =>
        cases hv : env.versionOk
        · simp [start, hbf, hgs, hbr, hv] at hok
        · cases hcs : env.createSessionOk
          · simp [start, hbf, hgs, hbr, hv, hcs] at hok
          · simp only [start, hbf, hgs, hbr, hv, hcs, if_true] at hok ⊢
            split at hok
            · simp at hok
            · rename_i hpd
              split at hok
              · rename_i hsp
                rw [if_pos hsp]
                obtain ⟨l1, l2, l3, l4, l5⟩ := prepareDrawing_ok_spec env _
                  (by simp [session0, oxr0]) (by simp [session0, oxr0])
                  (by simp [session0, oxr0]) hpd
                refine ⟨?_, ?_, ?_, ?_, ?_, ?_, ?_⟩
                · simpa [session0, oxr0] using l1
                · simpa [session0, oxr0] using l2
                · simpa using l4
                · simpa using l3
                · exact prepareDrawing_infos_map env _ hpd
                · intro v hlast
                  exact prepareDrawing_stored_last env _ v hpd hlast
                · intro w hh hdims
                  constructor
                  · intro info hmem
                    obtain ⟨v, hv2, -, hw2, hh2⟩ :=
                      prepareDrawing_infos_dims env _ info hmem
                    obtain ⟨hvw, hvh⟩ := hdims v hv2
                    exact ⟨by rw [hw2, hvw], by rw [hh2, hvh]⟩
                  · intro hne
                    cases hlast : env.viewConfigs.getLast? with
                    | none => exact absurd (List.getLast?_eq_none_iff.mp hlast) hne
                    | some v =>
                        obtain ⟨hw2, hh2⟩ :=
                          prepareDrawing_stored_last env _ v hpd hlast
                        have hvmem : v ∈ env.viewConfigs := by
                          obtain ⟨hne2, hveq⟩ := List.mem_getLast?_eq_getLast
                            (show v ∈ env.viewConfigs.getLast? by
                              rw [Option.mem_def]; exact hlast)
                          rw [hveq]
                          exact List.getLast_mem hne2
                        obtain ⟨hvw, hvh⟩ := hdims v hvmem
                        exact ⟨by rw [← hvw]; exact hw2, by rw [← hvh]; exact hh2⟩
              · simp at hok

/-- C4 counterexample: with a runtime that recommends 100×100 for the first
view and 200×200 for the second, `start` succeeds, the counts and non-empty
invariants hold, but the created swapchains do not share the stored
dimensions — the first swapchain was created 100×100 while the stored extent
is the last view's 200×200.  This refutes the claim's "all swapchains share
identical stored dimensions" conjunct. -/
theorem start_invariants_counterexample :
    ¬ ((start envDiffDims session0).2.2 = none →
        ((start envDiffDims session0).1.oxr.swapchains.length =
            envDiffDims.viewConfigs.length ∧
         (start envDiffDims session0).1.oxr.swapchain_images.length =
            envDiffDims.viewConfigs.length ∧
         (start envDiffDims session0).1.oxr.views.length =
            envDiffDims.viewConfigs.length ∧
         (∀ p ∈ (start envDiffDims session0).1.oxr.swapchain_images, p.2 ≠ []) ∧
         (∀ info ∈ (start envDiffDims session0).2.1.createdSwapchainInfos,
           info.width = (start envDiffDims session0).1.oxr.swapchain_image_width ∧
           info.height = (start envDiffDims session0).1.oxr.swapchain_image_height))) := by
  decide

/-- C4 amended witness: the invariants at the everything-succeeds stereo
environment whose views share the 100×100 extent. -/
theorem start_prepared_invariants_witness :
    (start envSameDims session0).1.oxr.swapchains.length =
      envSameDims.viewConfigs.length ∧
    (start envSameDims session0).1.oxr.swapchain_images.length =
      envSameDims.viewConfigs.length ∧
    (start envSameDims session0).1.oxr.views.length =
      envSameDims.viewConfigs.length ∧
    (∀ p ∈ (start envSameDims session0).1.oxr.swapchain_images, p.2 ≠ []) ∧
    ((start envSameDims session0).2.1.createdSwapchainInfos.map
        (fun info => (info.width, info.height)) =
      envSameDims.viewConfigs.map
        (fun v => (v.recommendedImageRectWidth, v.recommendedImageRectHeight))) ∧
    (∀ v, envSameDims.viewConfigs.getLast? = some v →
      (start envSameDims session0).1.oxr.swapchain_image_width =
        v.recommendedImageRectWidth ∧
      (start envSameDims session0).1.oxr.swapchain_image_height =
        v.recommendedImageRectHeight) ∧
    (∀ w hh, (∀ v ∈ envSameDims.viewConfigs, v.recommendedImageRectWidth = w ∧
        v.recommendedImageRectHeight = hh) →
      (∀ info ∈ (start envSameDims session0).2.1.createdSwapchainInfos,
        info.width = w ∧ info.height = hh) ∧
      (envSameDims.viewConfigs ≠ [] →
        (start envSameDims session0).1.oxr.swapchain_image_width = w ∧
        (start envSameDims session0).1.oxr.swapchain_image_height = hh)) :=
  start_prepared_invariants envSameDims (by decide)

/-! ### C8: format negotiation -/

/-- C8: with the runtime's format enumeration succeeding, `swapchain_create`
fails with `FormatNegotiationError` exactly when the offered format set and
the backend-supported set are disjoint; and any successfully created
swapchain carries a format present in both sets. -/
theorem format_negotiation_spec (supported : List Int) (pe : PerViewEnv)
    (xr_view : XrViewConfigurationView) (handle : Nat) (offered : List Int)
    (hf : pe.formats = some offered) :
    (swapchain_create supported pe xr_view handle =
        Except.error VAMR_Error.FormatNegotiationError ↔
      ∀ f ∈ offered, f ∉ supported) ∧
    (∀ h info, swapchain_create supported pe xr_view handle = Except.ok (h, info) →
      info.format ∈ offered ∧ info.format ∈ supported) := by
  constructor
  · constructor
    · intro herr
      cases hc : chooseSwapchainFormat supported offered with
      | none =>
          unfold chooseSwapchainFormat at hc
          intro f hfm hsup
          have := List.find?_eq_none.mp hc f hfm
          simp [hsup] at this
      | some fmt =>
          exfalso
          by_cases hcr : pe.createOk <;>
            simp [swapchain_create, hf, hc, hcr] at herr
    · intro hdisj
      have hc : chooseSwapchainFormat supported offered = none := by
        unfold chooseSwapchainFormat
        rw [List.find?_eq_none]
        intro x hx
        simp [hdisj x hx]
      simp [swapchain_create, hf, hc]
  · intro h info hok
    cases hc : chooseSwapchainFormat supported offered with
    | none => simp [swapchain_create, hf, hc] at hok
    | some fmt =>
        have hmem := List.mem_of_find?_eq_some hc
        have hpred := List.find?_some hc
        simp only [List.elem_eq_mem, decide_eq_true_eq] at hpred
        by_cases hcr : pe.createOk
        · simp only [swapchain_create, hf, hc] at hok
          rw [if_pos hcr, Except.ok.injEq, Prod.mk.injEq] at hok
          obtain ⟨-, h2⟩ := hok
          subst h2
          exact ⟨hmem, hpred⟩
        · simp [swapchain_create, hf, hc, hcr] at hok

/-- C8 witness: negotiation fails on disjoint sets and succeeds with a shared
format on overlapping sets. -/
theorem format_negotiation_spec_witness :
    (swapchain_create [9] ⟨some [5, 6], true, some 1, true⟩ ⟨100, 100, 1⟩ 10 =
        Except.error VAMR_Error.FormatNegotiationError ↔
      ∀ f ∈ [5, 6], f ∉ ([9] : List Int)) ∧
    (∀ h info, swapchain_create [9] ⟨some [5, 6], true, some 1, true⟩
        ⟨100, 100, 1⟩ 10 = Except.ok (h, info) →
      info.format ∈ [5, 6] ∧ info.format ∈ ([9] : List Int)) :=
  format_negotiation_spec [9] ⟨some [5, 6], true, some 1, true⟩ ⟨100, 100, 1⟩
    10 [5, 6] rfl

/-! ### C10: the unchecked `images[0]` access -/

/-- C10: when the first enumeration reports at least one swapchain image,
the backend's vector is non-empty, the unchecked `images[0]` dereference is
in bounds (the out-of-bounds outcome is impossible), and — with the second
enumeration succeeding — the function returns an image list whose length is
the enumerated count. -/
theorem swapchain_images_in_bounds (pe : PerViewEnv) (n : Nat)
    (hcount : pe.imageCount = some n) (hpos : 1 ≤ n) :
    swapchain_images_create pe ≠ Except.error VAMR_Error.OutOfBounds ∧
    (createSwapchainImages n).length = n ∧
    (pe.imagesEnumOk = true →
      swapchain_images_create pe = Except.ok (createSwapchainImages n)) := by
  have hne : createSwapchainImages n ≠ [] := by
    unfold createSwapchainImages
    simp only [ne_eq, List.range_eq_nil]
    omega
  refine ⟨?_, by simp [createSwapchainImages], ?_⟩
  · unfold swapchain_images_create
    rw [hcount]
    cases him : createSwapchainImages n with
    | nil => exact absurd him hne
    | cons a rest =>
        by_cases hen : pe.imagesEnumOk <;> simp [him, hen]
  · intro hen
    unfold swapchain_images_create
    rw [hcount]
    cases him : createSwapchainImages n with
    | nil => exact absurd him hne
    | cons a rest => simp [hen, him]

/-- C10 witness: the in-bounds property at an enumerated count of 2. -/
theorem swapchain_images_in_bounds_witness :
    swapchain_images_create ⟨some [5], true, some 2, true⟩ ≠
      Except.error VAMR_Error.OutOfBounds ∧
    (createSwapchainImages 2).length = 2 ∧
    ((⟨some [5], true, some 2, true⟩ : PerViewEnv).imagesEnumOk = true →
      swapchain_images_create ⟨some [5], true, some 2, true⟩ =
        Except.ok (createSwapchainImages 2)) :=
  swapchain_images_in_bounds ⟨some [5], true, some 2, true⟩ 2 rfl (by decide)
